import Mathlib

/-!
Shallow embedding of the COVID-19 Italy tracker data pipeline (`src/data.py`,
`src/report.py`, `src/Region.py`).

Modelling conventions:
* A pandas `DataFrame` as used by the windowing functions is a list of
  (index label, row) pairs: `PTable α := List (ℤ × α)`.  `DataFrame.drop(index=n)`
  removes the rows carrying label `n` and raises `KeyError` when the label is
  absent; we model raising with `Except String`.
* A Python function that can either `return` a value, fall off the end
  (returning `None`), or raise, is modelled as `Except String (Option α)`:
  `Except.ok none` is a `return None`, `Except.error` a raised exception.
* `NaN` cells are modelled as `Option ℚ` with `none` for `NaN`; `int(NaN)`
  raises `ValueError` in Python, modelled as `Except.error`.
* Python `round(x, 2)` is round-half-to-even at two decimals, modelled
  exactly on ℚ.
-/

/-- Python `range(a, b)` over integers: `[a, a+1, ..., b-1]`, empty when `b ≤ a`. -/
def intRange (a b : ℤ) : List ℤ :=
  (List.range (b - a).toNat).map (fun (i : ℕ) => a + (i : ℤ))

/-- Python `list.insert(n, x)`: inserts `x` before position `n`, appending when
`n` is at least the length of the list. -/
def pyInsert (l : List α) (n : ℕ) (x : α) : List α :=
  l.take n ++ x :: l.drop n

/-- Python `int()` applied to a (rational-valued) float: truncation toward zero. -/
def intTrunc (q : ℚ) : ℤ :=
  if 0 ≤ q then ⌊q⌋ else ⌈q⌉

/-- Python `round` to an integer: round half to even. -/
def roundHalfEven (q : ℚ) : ℤ :=
  let f := ⌊q⌋
  let r := q - (f : ℚ)
  if r < 1/2 then f
  else if 1/2 < r then f + 1
  else if f % 2 = 0 then f else f + 1

/-- Python `round(q, 2)`: round half to even at two decimal places. -/
def round2 (q : ℚ) : ℚ :=
  (roundHalfEven (q * 100) : ℚ) / 100

instance [DecidableEq ε] [DecidableEq α] : DecidableEq (Except ε α) := fun x y =>
  match x, y with
  | .ok a, .ok b =>
      if h : a = b then .isTrue (congrArg _ h)
      else .isFalse (fun c => h (Except.ok.inj c))
  | .error a, .error b =>
      if h : a = b then .isTrue (congrArg _ h)
      else .isFalse (fun c => h (Except.error.inj c))
  | .ok _, .error _ => .isFalse (fun c => Except.noConfusion c)
  | .error _, .ok _ => .isFalse (fun c => Except.noConfusion c)

/-- A pandas `DataFrame` restricted to what the windowing functions observe:
rows tagged with their integer index label. -/
abbrev PTable (α : Type) : Type := List (ℤ × α)

/-- Number of rows, `dataset.shape[0]`. -/
def PTable.nrows (t : PTable α) : ℕ := t.length

/-- `dataset.drop(index=n)` (non-inplace): removes the rows labelled `n`,
raising `KeyError` when no row carries that label. -/
def dropIndex (t : PTable α) (n : ℤ) : Except String (PTable α) :=
  if t.any (fun p => p.1 = n) then
    .ok (t.filter (fun p => ¬ p.1 = n))
  else
    .error "KeyError"

/-- A `for n in ns: dataset = dataset.drop(index=n)` loop. -/
def dropLoop (t : PTable α) (ns : List ℤ) : Except String (PTable α) :=
  ns.foldlM dropIndex t

/-- `select_data_head(dataset, quantity)` from `src/data.py`: returns `None`
when `quantity` exceeds the row count, otherwise drops the labels
`1+quantity ... shape[0]` one by one. -/
def select_data_head (t : PTable α) (quantity : ℤ) : Except String (Option (PTable α)) :=
  if quantity > (t.nrows : ℤ) then
    .ok none
  else
    (dropLoop t (intRange (1 + quantity) ((t.nrows : ℤ) + 1))).map some

/-- `select_data_tail(dataset, quantity)` from `src/data.py`. -/
def select_data_tail (t : PTable α) (quantity : ℤ) : Except String (Option (PTable α)) :=
  if quantity > (t.nrows : ℤ) then
    .ok none
  else
    (dropLoop t (intRange 1 ((t.nrows : ℤ) - (quantity - 1)))).map some

/-- `select_data_range(dataset, begin, end)` from `src/data.py`: bound checks
return `None`; the first loop drops labels `1 ... begin-1`, the second drops
labels `end ... shape[0]` where `shape[0]` is re-read from the already
shrunken table. -/
def select_data_range (t : PTable α) (b e : ℤ) : Except String (Option (PTable α)) :=
  if b ≤ 0 then .ok none
  else if e > (t.nrows : ℤ) then .ok none
  else if e ≤ b then .ok none
  else do
    let t1 ← dropLoop t (intRange 1 b)
    let t2 ← dropLoop t1 (intRange e ((t1.nrows : ℤ) + 1))
    return some t2

/-- A table whose labels are `k, k+1, ...` over the given rows, as produced by
`elaborate_data` (labels `1 ... N`). -/
def labeledFrom (k : ℤ) : List α → PTable α
  | [] => []
  | r :: rs => (k, r) :: labeledFrom (k + 1) rs

example : select_data_head (labeledFrom 1 [10, 20, 30]) 5 = .ok none := by decide
example : select_data_head (labeledFrom 1 [10, 20, 30]) 2 =
    .ok (some [(1, 10), (2, 20)]) := by decide
example : select_data_tail (labeledFrom 1 [10, 20, 30]) 2 =
    .ok (some [(2, 20), (3, 30)]) := by decide
example : select_data_head (labeledFrom 1 [10, 20, 30]) 0 = .ok (some []) := by decide
example : select_data_tail (labeledFrom 1 [10, 20, 30]) 0 = .ok (some []) := by decide
example : select_data_range (labeledFrom 1 [10, 20, 30, 40, 50]) 2 4 =
    .ok (some [(2, 20), (3, 30), (5, 50)]) := by decide
example : select_data_range (labeledFrom 1 [10, 20, 30, 40, 50]) 1 3 =
    .ok (some [(1, 10), (2, 20)]) := by decide

/-!
## Metric Derivation (`elaborate_data` and its helpers, `src/data.py`)

A pruned input table (output of `cleanup_data` followed by `reset_index`) has
contiguous labels `0 ... N-1`, so we represent it positionally as `List RowP`.
`dataset.at[n, c]` is label-based access, modelled with `List.get?`; a missing
label raises `KeyError`.
-/

/-- One row of the pruned input table: exactly the columns `elaborate_data`
reads.  `nuovi_positivi` and `casi_testati` may be `NaN` (`none`). -/
structure RowP where
  data : ℤ
  nuovi_positivi : Option ℚ
  tamponi : ℚ
  casi_testati : Option ℚ
  terapia_intensiva : ℚ
  deceduti : ℚ
deriving Repr, DecidableEq, Inhabited

/-- One row of the derived table, after column drop, rename and reorder:
`DATA`, `N. POS.` (`nPos`), `TEST`, `%` (`pct`), `T.I.` (`TI`),
`DIFF.` (`DIFF`), `MORTI`. -/
structure RowD where
  DATA : ℤ
  nPos : Option ℚ
  TEST : ℤ
  pct : Option ℚ
  TI : ℚ
  DIFF : ℤ
  MORTI : ℤ
deriving Repr, DecidableEq, Inhabited

/-- `calculate_tests_delta(n, dataset)`: tests `isnan(casi_testati[n-1])` only;
when row `n-1` has a validated count but row `n` does not, the subtraction
yields `NaN` and `int(NaN)` raises `ValueError`. -/
def calculate_tests_delta (n : ℕ) (ds : List RowP) : Except String ℤ :=
  match ds.get? (n - 1), ds.get? n with
  | some prev, some cur =>
    match prev.casi_testati with
    | none => .ok (intTrunc (cur.tamponi - prev.tamponi))
    | some cp =>
      match cur.casi_testati with
      | some cc => .ok (intTrunc (cc - cp))
      | none => .error "cannot convert float NaN to integer"
  | _, _ => .error "KeyError"

/-- `calculate_ratio(n, dataset)`: reads the `testati` column assigned at the
start of `elaborate_data` (passed here explicitly) and `nuovi_positivi`.
Returns the integer `0` when `testati[n] == 0`, otherwise
`round(nuovi_positivi[n] / testati[n] * 100, 2)`; a `NaN` numerator
propagates to a `NaN` result (Python `round(nan, 2)` is `nan`). -/
def calculate_ratio (n : ℕ) (ds : List RowP) (testati : List ℤ) :
    Except String (Option ℚ) :=
  match testati.get? n, ds.get? n with
  | some t, some cur =>
    if t = 0 then .ok (some 0)
    else .ok (cur.nuovi_positivi.map (fun c => round2 (c / (t : ℚ) * 100)))
  | _, _ => .error "KeyError"

/-- `calculate_deaths_delta(n, dataset)`: the day-over-day difference of
`deceduti`, clamped to `0` when negative. -/
def calculate_deaths_delta (n : ℕ) (ds : List RowP) : Except String ℤ :=
  match ds.get? (n - 1), ds.get? n with
  | some prev, some cur =>
    let delta := cur.deceduti - prev.deceduti
    if 0 ≤ delta then .ok (intTrunc delta) else .ok 0
  | _, _ => .error "KeyError"

/-- `calculate_icu_delta(n, dataset)`: day-over-day difference of
`terapia_intensiva`, unclamped. -/
def calculate_icu_delta (n : ℕ) (ds : List RowP) : Except String ℤ :=
  match ds.get? (n - 1), ds.get? n with
  | some prev, some cur =>
    .ok (intTrunc (cur.terapia_intensiva - prev.terapia_intensiva))
  | _, _ => .error "KeyError"

/-- The row of the reordered derived table at position `n`, assembled from the
retained input columns and the four computed columns. -/
def mkRowD (ds : List RowP) (testati : List ℤ) (rapporto : List (Option ℚ))
    (morti diffs : List ℤ) (n : ℕ) : RowD :=
  { DATA := (ds.getD n default).data
    nPos := (ds.getD n default).nuovi_positivi
    TEST := testati.getD n 0
    pct := rapporto.getD n none
    TI := (ds.getD n default).terapia_intensiva
    DIFF := diffs.getD n 0
    MORTI := morti.getD n 0 }

/-- `Parallel(cpus)(delayed(f)(n) for n in ns)`: joblib dispatches the tasks
and returns their results in input order, so the list of results is the
ordered map of `f`; an exception in any task propagates. -/
def parMap (f : ℕ → Except String α) : List ℕ → Except String (List α)
  | [] => .ok []
  | n :: ns =>
    match f n, parMap f ns with
    | .ok x, .ok xs => .ok (x :: xs)
    | .error e, _ => .error e
    | .ok _, .error e => .error e

/-- `elaborate_data(dataset)` from `src/data.py`.  The four per-row column
computations run over `range(1, shape[0])`, each result list is prefixed with
a sentinel `0` and assigned as a column — pandas raises when the value list
length differs from the row count, which happens exactly for an empty input
(`[0]` against 0 rows).  Raw cumulative columns are dropped, columns renamed
and reordered, and finally the row labelled `0` is dropped. -/
def elaborate_data (ds : List RowP) : Except String (PTable RowD) :=
  match parMap (fun n => calculate_tests_delta n ds) (List.range' 1 (ds.length - 1)) with
  | .error e => .error e
  | .ok tests0 =>
    let testati := (0 : ℤ) :: tests0
    if testati.length ≠ ds.length then
      .error "Length of values does not match length of index"
    else
      match parMap (fun n => calculate_ratio n ds testati) (List.range' 1 (ds.length - 1)) with
      | .error e => .error e
      | .ok rapporto0 =>
        let rapporto := some (0 : ℚ) :: rapporto0
        match parMap (fun n => calculate_deaths_delta n ds) (List.range' 1 (ds.length - 1)) with
        | .error e => .error e
        | .ok morti0 =>
          let morti := (0 : ℤ) :: morti0
          match parMap (fun n => calculate_icu_delta n ds) (List.range' 1 (ds.length - 1)) with
          | .error e => .error e
          | .ok diffs0 =>
            let diffs := (0 : ℤ) :: diffs0
            let out : PTable RowD :=
              (List.range ds.length).map
                (fun (n : ℕ) => ((n : ℤ), mkRowD ds testati rapporto morti diffs n))
            dropIndex out 0

/-- The three-day national scenario: cumulative tests `[100, 150, 230]`,
new cases `[NaN, 10, 25]`, cumulative deaths `[5, 5, 7]`, ICU `[2, 3, 1]`,
validated test counts absent. -/
def e2eInput : List RowP :=
  [ { data := 1, nuovi_positivi := none, tamponi := 100, casi_testati := none,
      terapia_intensiva := 2, deceduti := 5 },
    { data := 2, nuovi_positivi := some 10, tamponi := 150, casi_testati := none,
      terapia_intensiva := 3, deceduti := 5 },
    { data := 3, nuovi_positivi := some 25, tamponi := 230, casi_testati := none,
      terapia_intensiva := 1, deceduti := 7 } ]

/-- Day 2 of the derived three-day scenario. -/
def e2eRow1 : RowD :=
  { DATA := 2, nPos := some 10, TEST := 50, pct := some 20,
    TI := 3, DIFF := 1, MORTI := 0 }

/-- Day 3 of the derived three-day scenario (`31.25 = 125/4`). -/
def e2eRow2 : RowD :=
  { DATA := 3, nPos := some 25, TEST := 80, pct := some (125/4),
    TI := 1, DIFF := -2, MORTI := 2 }

/-- The derived table of the three-day scenario. -/
def e2eDerived : PTable RowD := [(1, e2eRow1), (2, e2eRow2)]

/-!
## Regions (`src/Region.py`) and the ranking aggregator (`src/report.py`)

`show_national_ranking` runs the per-region pipelines with
`Parallel(cpus, require="sharedmem")`: the results dictionary is keyed by
region (deterministic), but `build_ranking_lists` then runs in parallel and
does `regions.insert(n, ...)` followed by `ratios.insert(n, ...)` into two
shared lists.  We model a parallel execution as a sequence of atomic insert
events (each task's region-insert precedes its ratio-insert; tasks interleave
arbitrarily) and the final `sort_values(by="%", ascending=False)` as a
descending sort on the ratio component.
-/

/-- The `Region` enumeration: stable numeric dataset code and display name. -/
inductive Region where
  | Abruzzo | Basilicata | Calabria | Campania | EmiliaRomagna
  | FriuliVeneziaGiulia | Lazio | Liguria | Lombardia | Marche
  | Molise | PaBolzano | PaTrento | Piemonte | Puglia
  | Sardegna | Sicilia | Toscana | Umbria | ValleDAosta | Veneto
deriving Repr, DecidableEq, Inhabited

/-- `region.value[0]`: the upstream dataset's regional identifier. -/
def Region.code : Region → ℤ
  | .Abruzzo => 13 | .Basilicata => 17 | .Calabria => 18 | .Campania => 15
  | .EmiliaRomagna => 8 | .FriuliVeneziaGiulia => 6 | .Lazio => 12
  | .Liguria => 7 | .Lombardia => 3 | .Marche => 11 | .Molise => 14
  | .PaBolzano => 21 | .PaTrento => 22 | .Piemonte => 1 | .Puglia => 16
  | .Sardegna => 20 | .Sicilia => 19 | .Toscana => 9 | .Umbria => 10
  | .ValleDAosta => 2 | .Veneto => 5

/-- `region.value[1]`: the canonical display name. -/
def Region.displayName : Region → String
  | .Abruzzo => "Abruzzo" | .Basilicata => "Basilicata" | .Calabria => "Calabria"
  | .Campania => "Campania" | .EmiliaRomagna => "Emilia-Romagna"
  | .FriuliVeneziaGiulia => "Friuli Venezia Giulia" | .Lazio => "Lazio"
  | .Liguria => "Liguria" | .Lombardia => "Lombardia" | .Marche => "Marche"
  | .Molise => "Molise" | .PaBolzano => "P.A. Bolzano" | .PaTrento => "P.A. Trento"
  | .Piemonte => "Piemonte" | .Puglia => "Puglia" | .Sardegna => "Sardegna"
  | .Sicilia => "Sicilia" | .Toscana => "Toscana" | .Umbria => "Umbria"
  | .ValleDAosta => "Valle d'Aosta" | .Veneto => "Veneto"

/-- Python `for region in Region`: members in declaration order. -/
def Region.enumOrder : List Region :=
  [.Abruzzo, .Basilicata, .Calabria, .Campania, .EmiliaRomagna,
   .FriuliVeneziaGiulia, .Lazio, .Liguria, .Lombardia, .Marche,
   .Molise, .PaBolzano, .PaTrento, .Piemonte, .Puglia,
   .Sardegna, .Sicilia, .Toscana, .Umbria, .ValleDAosta, .Veneto]

/-- The region handled by the task with enumeration index `n`. -/
def regionAt (n : ℕ) : Region := Region.enumOrder.getD n default

/-- One atomic shared-list operation performed by `build_ranking_lists(n, ...)`:
either its `regions.insert(n, region.value[1])` or its
`ratios.insert(n, results.get(region).tail(1)["%"])`. -/
inductive RankEvent where
  | regIns (n : ℕ)
  | ratIns (n : ℕ)
deriving Repr, DecidableEq

/-- Shared state of `show_national_ranking`: the `regions` and `ratios` lists. -/
def rankStep (latest : Region → ℚ) (s : List String × List ℚ) :
    RankEvent → List String × List ℚ
  | .regIns n => (pyInsert s.1 n (regionAt n).displayName, s.2)
  | .ratIns n => (s.1, pyInsert s.2 n (latest (regionAt n)))

/-- Replay a full interleaving of the 21 `build_ranking_lists` tasks. -/
def runRankLists (latest : Region → ℚ) (sched : List RankEvent) :
    List String × List ℚ :=
  sched.foldl (rankStep latest) ([], [])

/-- An interleaving is valid when every task `n < 21` performs its two inserts
exactly once, region-insert before ratio-insert. -/
def validSchedule (sched : List RankEvent) : Bool :=
  sched.length = 42 &&
  (List.range 21).all (fun n =>
    sched.count (.regIns n) = 1 && sched.count (.ratIns n) = 1 &&
    sched.indexOf (.regIns n) < sched.indexOf (.ratIns n))

/-- `ranking.sort_values(by="%", ascending=False)`: a descending sort on the
ratio column (`sort_values` reorders rows by the key; tie order among equal
keys is left to the sort kind and is not relied upon here). -/
def sortByRatioDesc (l : List (String × ℚ)) : List (String × ℚ) :=
  l.insertionSort (fun a b => b.2 ≤ a.2)

/-- `show_national_ranking`, given the per-region latest ratios (the `results`
dictionary is keyed by region identity, hence deterministic) and an
interleaving of the `build_ranking_lists` tasks: zip the two shared lists into
the `REGIONE`/`%` columns and sort descending by ratio. -/
def national_ranking (latest : Region → ℚ) (sched : List RankEvent) :
    List (String × ℚ) :=
  let s := runRankLists latest sched
  sortByRatioDesc (s.1.zip s.2)

/-- The fully sequential schedule: task 0 completes, then task 1, ... -/
def seqSchedule : List RankEvent :=
  (List.range 21).flatMap (fun n => [.regIns n, .ratIns n])

/-- A racy but valid interleaving: every region-insert first (in task order),
then the ratio-inserts with tasks 2, 1, 0 finishing in reversed order. -/
def racySchedule : List RankEvent :=
  (List.range 21).map .regIns ++
  ([.ratIns 2, .ratIns 1, .ratIns 0] ++ (List.range' 3 18).map .ratIns)

/-- Distinct per-region latest ratios used to exhibit the race. -/
def rankRatioInput (r : Region) : ℚ :=
  ((Region.enumOrder.indexOf r : ℕ) : ℚ)

example : validSchedule seqSchedule = true := by decide
example : validSchedule racySchedule = true := by decide
example :
    national_ranking rankRatioInput seqSchedule ≠
    national_ranking rankRatioInput racySchedule := by decide

/-!
## Column Pruning (`cleanup_data`, `src/data.py`) and in-place mutation

`cleanup_data` drops columns with `inplace=True`, filters and re-indexes rows
for the regional variant, and returns the very object it was handed.  To talk
about the caller's table before and after the call we use a column-generic
DataFrame: named columns plus rows of cells positionally aligned with them.
The final state of the caller's argument after `cleanup_data(dataset, region)`
is exactly the returned table, since every operation inside is `inplace=True`
on `dataset` itself.
-/

/-- A DataFrame with named columns; each row is an index label together with
cell values positionally aligned with `cols`. -/
structure DF where
  cols : List String
  rows : List (ℤ × List ℚ)
deriving Repr, DecidableEq

/-- `dataset.drop(columns=cs)`: raises `KeyError` when any named column is
absent, otherwise removes those columns from the schema and every row. -/
def DF.dropColumns (d : DF) (cs : List String) : Except String DF :=
  if cs.all (fun c => d.cols.contains c) then
    .ok { cols := d.cols.filter (fun c => ¬ cs.contains c),
          rows := d.rows.map (fun r =>
            (r.1, ((d.cols.zip r.2).filter (fun p => ¬ cs.contains p.1)).map Prod.snd)) }
  else
    .error "KeyError"

/-- The cell of a row under a named column. -/
def DF.cell (d : DF) (r : List ℚ) (c : String) : Option ℚ :=
  ((d.cols.zip r).find? (fun p => p.1 = c)).map Prod.snd

/-- The eleven columns `cleanup_data` always drops. -/
def cleanupDropped : List String :=
  ["stato", "ricoverati_con_sintomi", "totale_ospedalizzati",
   "isolamento_domiciliare", "totale_positivi", "variazione_totale_positivi",
   "dimessi_guariti", "casi_da_sospetto_diagnostico", "casi_da_screening",
   "totale_casi", "note"]

/-- The geo/metadata columns dropped in the regional variant. -/
def regionalDropped : List String :=
  ["codice_regione", "denominazione_regione", "lat", "long"]

/-- `cleanup_data(dataset, region)` from `src/data.py`: every operation is
`inplace=True` on the argument, which is then returned.  The result below is
therefore both the return value and the final state of the caller's table. -/
def cleanup_data (d : DF) (region : Option Region) : Except String DF := do
  let d1 ← d.dropColumns cleanupDropped
  match region with
  | none => return d1
  | some r =>
    if d1.cols.contains "codice_regione" then
      let filtered : DF :=
        { cols := d1.cols,
          rows := d1.rows.filter
            (fun p => d1.cell p.2 "codice_regione" = some ((r.code : ℤ) : ℚ)) }
      let d2 ← filtered.dropColumns regionalDropped
      return { cols := d2.cols,
               rows := (d2.rows.map Prod.snd).enum.map (fun p => ((p.1 : ℤ), p.2)) }
    else
      throw "KeyError"

/-!
## Structural lemmas about `elaborate_data`
-/

theorem parMap_ok_length {f : ℕ → Except String α} :
    ∀ {l : List ℕ} {ys : List α}, parMap f l = .ok ys → ys.length = l.length := by
  intro l
  induction l with
  | nil =>
    intro ys h
    simp only [parMap] at h
    cases h
    rfl
  | cons n ns ih =>
    intro ys h
    simp only [parMap] at h
    split at h
    · cases h
      next x xs hx hxs =>
        simp [ih hxs]
    · cases h
    · cases h

theorem parMap_ok_getD {f : ℕ → Except String α} (d : ℕ) (dy : α) :
    ∀ {l : List ℕ} {ys : List α}, parMap f l = .ok ys →
      ∀ k, k < l.length → f (l.getD k d) = .ok (ys.getD k dy) := by
  intro l
  induction l with
  | nil =>
    intro ys _ k hk
    exact absurd hk (by simp)
  | cons n ns ih =>
    intro ys h k hk
    simp only [parMap] at h
    split at h
    · cases h
      next x xs hx hxs =>
        cases k with
        | zero => simpa using hx
        | succ k =>
          simp only [List.getD_cons_succ]
          exact ih hxs k (by simpa using hk)
    · cases h
    · cases h

theorem range_filter_label_ne_zero (m : ℕ) :
    (List.range (m + 1)).filter (fun (n : ℕ) => decide ¬((n : ℤ) = 0)) = List.range' 1 m := by
  rw [List.range_succ_eq_map]
  rw [List.filter_cons, if_neg (by simp), List.filter_map]
  have hall : (List.range m).filter ((fun (n : ℕ) => decide ¬((n : ℤ) = 0)) ∘ Nat.succ) =
      List.range m := by
    apply List.filter_eq_self.mpr
    intro a _
    simp
  rw [hall, List.range'_eq_map_range]
  apply List.map_congr_left
  intro a _
  simp [Nat.succ_eq_add_one, Nat.add_comm]

/-- Inversion of a successful `elaborate_data` run: the input had at least one
row, every per-row computation succeeded, and the output is the reordered
derived row for every index `1 ... N-1`, labelled by that index. -/
theorem elaborate_ok_structure {ds : List RowP} {t : PTable RowD}
    (h : elaborate_data ds = .ok t) :
    1 ≤ ds.length ∧
    ∃ tests0 rapporto0 morti0 diffs0,
      parMap (fun n => calculate_tests_delta n ds) (List.range' 1 (ds.length - 1)) = .ok tests0 ∧
      parMap (fun n => calculate_ratio n ds ((0:ℤ) :: tests0)) (List.range' 1 (ds.length - 1)) = .ok rapporto0 ∧
      parMap (fun n => calculate_deaths_delta n ds) (List.range' 1 (ds.length - 1)) = .ok morti0 ∧
      parMap (fun n => calculate_icu_delta n ds) (List.range' 1 (ds.length - 1)) = .ok diffs0 ∧
      t = (List.range' 1 (ds.length - 1)).map
            (fun (n : ℕ) => ((n : ℤ),
              mkRowD ds ((0:ℤ) :: tests0) (some 0 :: rapporto0)
                ((0:ℤ) :: morti0) ((0:ℤ) :: diffs0) n)) := by
  unfold elaborate_data at h
  split at h
  · cases h
  next tests0 hT =>
    simp only at h
    split at h
    · cases h
    next hlen =>
      have hN : tests0.length + 1 = ds.length := by
        simpa [Nat.add_comm] using not_ne_iff.mp hlen
      have hN1 : 1 ≤ ds.length := by omega
      split at h
      · cases h
      next rapporto0 hR =>
        split at h
        · cases h
        next morti0 hM =>
          split at h
          · cases h
          next diffs0 hI =>
            refine ⟨hN1, tests0, rapporto0, morti0, diffs0, hT, hR, hM, hI, ?_⟩
            unfold dropIndex at h
            obtain ⟨m, hm⟩ : ∃ m, ds.length = m + 1 :=
              ⟨ds.length - 1, by omega⟩
            rw [if_pos] at h
            · cases h
              rw [List.filter_map]
              have hcomp : ((fun (p : ℤ × RowD) => decide ¬(p.1 = 0)) ∘
                  (fun (n : ℕ) => ((n : ℤ),
                    mkRowD ds ((0:ℤ) :: tests0) (some 0 :: rapporto0)
                      ((0:ℤ) :: morti0) ((0:ℤ) :: diffs0) n))) =
                  (fun (n : ℕ) => decide ¬((n : ℤ) = 0)) := rfl
              rw [hcomp, hm, range_filter_label_ne_zero]
              simp [hm]
            · apply List.any_eq_true.mpr
              refine ⟨((0 : ℤ),
                mkRowD ds ((0:ℤ) :: tests0) (some 0 :: rapporto0)
                  ((0:ℤ) :: morti0) ((0:ℤ) :: diffs0) 0), ?_, by simp⟩
              apply List.mem_map.mpr
              refine ⟨0, ?_, by simp⟩
              rw [hm]
              simp

/-- Per-row reading of a successful `elaborate_data` run: the derived table
has one row per input index `1 ... N-1`, labelled by it, and each derived
row's fields are the corresponding `calculate_*` results and retained input
columns. -/
theorem elaborate_ok_rows {ds : List RowP} {t : PTable RowD}
    (h : elaborate_data ds = .ok t) :
    t.length = ds.length - 1 ∧
    ∀ p ∈ t, ∃ n : ℕ, 1 ≤ n ∧ n < ds.length ∧ p.1 = (n : ℤ) ∧
      calculate_tests_delta n ds = .ok p.2.TEST ∧
      calculate_deaths_delta n ds = .ok p.2.MORTI ∧
      calculate_icu_delta n ds = .ok p.2.DIFF ∧
      p.2.pct = (if p.2.TEST = 0 then some 0
        else (ds.getD n default).nuovi_positivi.map
          (fun c => round2 (c / (p.2.TEST : ℚ) * 100))) ∧
      p.2.nPos = (ds.getD n default).nuovi_positivi ∧
      p.2.DATA = (ds.getD n default).data ∧
      p.2.TI = (ds.getD n default).terapia_intensiva := by
  obtain ⟨hN1, tests0, rapporto0, morti0, diffs0, hT, hR, hM, hI, ht⟩ :=
    elaborate_ok_structure h
  have hlenT : tests0.length = ds.length - 1 := by
    simpa using parMap_ok_length hT
  constructor
  · simp [ht]
  · intro p hp
    rw [ht] at hp
    obtain ⟨n, hn, rfl⟩ := List.mem_map.mp hp
    obtain ⟨i, hi, hni⟩ := List.mem_range'.mp hn
    have hn' : n = 1 + i := by simpa using hni
    have hidx : (List.range' 1 (ds.length - 1)).getD i 0 = 1 + i := by
      rw [List.getD_eq_getElem _ _ (by simpa using hi)]
      simp
    have hn2 : n = i + 1 := by omega
    subst hn2
    have hnN : i + 1 < ds.length := by omega
    have hTn := parMap_ok_getD 0 0 hT i (by simpa using hi)
    have hMn := parMap_ok_getD 0 0 hM i (by simpa using hi)
    have hIn := parMap_ok_getD 0 0 hI i (by simpa using hi)
    have hRn := parMap_ok_getD 0 none hR i (by simpa using hi)
    rw [hidx, Nat.add_comm 1 i] at hTn hMn hIn hRn
    refine ⟨i + 1, by omega, hnN, rfl, ?_, ?_, ?_, ?_, ?_, ?_, ?_⟩
    · -- TEST
      show _ = Except.ok (((0:ℤ) :: tests0).getD (i+1) 0)
      rw [List.getD_cons_succ]
      exact hTn
    · -- MORTI
      show _ = Except.ok (((0:ℤ) :: morti0).getD (i+1) 0)
      rw [List.getD_cons_succ]
      exact hMn
    · -- DIFF
      show _ = Except.ok (((0:ℤ) :: diffs0).getD (i+1) 0)
      rw [List.getD_cons_succ]
      exact hIn
    · -- pct
      have hlt : i + 1 < ((0:ℤ) :: tests0).length := by
        simp only [List.length_cons, hlenT]
        omega
      have hget : ((0:ℤ) :: tests0).get? (i+1) =
          some (((0:ℤ) :: tests0).getD (i+1) 0) := by
        rw [List.getD_eq_getElem _ _ hlt, List.get?_eq_getElem?, List.getElem?_eq_getElem hlt]
      have hds : ds.get? (i+1) = some (ds.getD (i+1) default) := by
        rw [List.getD_eq_getElem _ _ hnN, List.get?_eq_getElem?, List.getElem?_eq_getElem hnN]
      rw [calculate_ratio, hget, hds] at hRn
      dsimp only [mkRowD]
      show (some (0:ℚ) :: rapporto0).getD (i+1) none = _
      rw [List.getD_cons_succ]
      split at hRn
      next heq1 heq2 =>
        obtain rfl := Option.some.inj heq1
        obtain rfl := Option.some.inj heq2
        split at hRn
        next h0 =>
          rw [if_pos h0]
          exact (Except.ok.inj hRn).symm
        next h0 =>
          rw [if_neg h0]
          exact (Except.ok.inj hRn).symm
      next hno => exact ((hno _ _ rfl rfl)).elim
    · simp [mkRowD]
    · simp [mkRowD]
    · simp [mkRowD]

/-!
## Window-selector lemmas
-/

theorem intRange_self (a : ℤ) : intRange a a = [] := by
  simp [intRange]

theorem intRange_empty {a b : ℤ} (h : b ≤ a) : intRange a b = [] := by
  have : (b - a).toNat = 0 := by omega
  simp [intRange, this]

theorem intRange_cons {a b : ℤ} (h : a < b) : intRange a b = a :: intRange (a + 1) b := by
  unfold intRange
  obtain ⟨m, hm⟩ : ∃ m, (b - a).toNat = m + 1 := ⟨(b - a).toNat - 1, by omega⟩
  have hm' : (b - (a + 1)).toNat = m := by omega
  rw [hm, hm', List.range_succ_eq_map, List.map_cons, List.map_map]
  congr 1
  · simp
  · apply List.map_congr_left
    intro x _
    simp only [Function.comp_apply]
    push_cast
    ring

theorem labeledFrom_length (k : ℤ) : ∀ (rs : List α), (labeledFrom k rs).length = rs.length := by
  intro rs
  induction rs generalizing k with
  | nil => rfl
  | cons r rs ih => simp [labeledFrom, ih]

theorem labeledFrom_label_ge (k : ℤ) :
    ∀ (rs : List α), ∀ p ∈ labeledFrom k rs, k ≤ p.1 := by
  intro rs
  induction rs generalizing k with
  | nil => intro p hp; cases hp
  | cons r rs ih =>
    intro p hp
    cases hp with
    | head => simp
    | tail _ hp =>
      have := ih (k + 1) p hp
      omega

/-- Dropping every label `k ... k + |rs| - 1` in order from a table labelled
from `k` succeeds and empties the table. -/
theorem dropLoop_labeledFrom_all :
    ∀ (rs : List α) (k : ℤ),
      dropLoop (labeledFrom k rs) (intRange k (k + rs.length)) = .ok [] := by
  intro rs
  induction rs with
  | nil =>
    intro k
    rw [show ((([] : List α).length : ℕ) : ℤ) = 0 by simp, add_zero, intRange_self]
    rfl
  | cons r rs ih =>
    intro k
    have hlt : k < k + ((r :: rs).length : ℤ) := by
      simp only [List.length_cons]
      push_cast
      omega
    rw [intRange_cons hlt]
    have hdrop : dropIndex (labeledFrom k (r :: rs)) k = .ok (labeledFrom (k + 1) rs) := by
      rw [show labeledFrom k (r :: rs) = (k, r) :: labeledFrom (k + 1) rs from rfl]
      unfold dropIndex
      rw [if_pos (by simp)]
      congr 1
      rw [List.filter_cons, if_neg (by simp)]
      apply List.filter_eq_self.mpr
      intro p hp
      have := labeledFrom_label_ge (k + 1) rs p hp
      simp only [decide_eq_true_eq]
      omega
    have hstep :
        dropLoop (labeledFrom k (r :: rs)) (k :: intRange (k + 1) (k + ((r :: rs).length : ℤ)))
          = dropLoop (labeledFrom (k + 1) rs) (intRange (k + 1) (k + ((r :: rs).length : ℤ))) := by
      unfold dropLoop
      rw [List.foldlM_cons, hdrop]
      rfl
    rw [hstep]
    have harith : k + (((r :: rs).length : ℕ) : ℤ) = (k + 1) + ((rs.length : ℕ) : ℤ) := by
      simp only [List.length_cons]
      push_cast
      ring
    rw [harith]
    exact ih (k + 1)

/-!
## Helper readings of `calculate_tests_delta`
-/

theorem calculate_tests_delta_none {n : ℕ} {ds : List RowP}
    (h1 : n - 1 < ds.length) (h2 : n < ds.length)
    (hnone : (ds.getD (n - 1) default).casi_testati = none) :
    calculate_tests_delta n ds =
      .ok (intTrunc ((ds.getD n default).tamponi - (ds.getD (n - 1) default).tamponi)) := by
  have hprev : ds.get? (n - 1) = some (ds.getD (n - 1) default) := by
    rw [List.getD_eq_getElem _ _ h1, List.get?_eq_getElem?, List.getElem?_eq_getElem h1]
  have hcur : ds.get? n = some (ds.getD n default) := by
    rw [List.getD_eq_getElem _ _ h2, List.get?_eq_getElem?, List.getElem?_eq_getElem h2]
  unfold calculate_tests_delta
  rw [hprev, hcur]
  show (match (ds.getD (n - 1) default).casi_testati with
        | none => Except.ok (intTrunc
            ((ds.getD n default).tamponi - (ds.getD (n - 1) default).tamponi))
        | some cp =>
          match (ds.getD n default).casi_testati with
          | some cc => Except.ok (intTrunc (cc - cp))
          | none => Except.error "cannot convert float NaN to integer") = _
  rw [hnone]

theorem calculate_tests_delta_some {n : ℕ} {ds : List RowP} {cp cc : ℚ}
    (h1 : n - 1 < ds.length) (h2 : n < ds.length)
    (hcp : (ds.getD (n - 1) default).casi_testati = some cp)
    (hcc : (ds.getD n default).casi_testati = some cc) :
    calculate_tests_delta n ds = .ok (intTrunc (cc - cp)) := by
  have hprev : ds.get? (n - 1) = some (ds.getD (n - 1) default) := by
    rw [List.getD_eq_getElem _ _ h1, List.get?_eq_getElem?, List.getElem?_eq_getElem h1]
  have hcur : ds.get? n = some (ds.getD n default) := by
    rw [List.getD_eq_getElem _ _ h2, List.get?_eq_getElem?, List.getElem?_eq_getElem h2]
  unfold calculate_tests_delta
  rw [hprev, hcur]
  show (match (ds.getD (n - 1) default).casi_testati with
        | none => Except.ok (intTrunc
            ((ds.getD n default).tamponi - (ds.getD (n - 1) default).tamponi))
        | some cp =>
          match (ds.getD n default).casi_testati with
          | some cc => Except.ok (intTrunc (cc - cp))
          | none => Except.error "cannot convert float NaN to integer") = _
  rw [hcp, hcc]

/-!
## Claim theorems
-/

/-- C1, counterexample input: 2-day pruned table where day 1 has 10 new cases
against only 5 new tests. -/
def c1Input : List RowP :=
  [ { data := 1, nuovi_positivi := some 0, tamponi := 100, casi_testati := none,
      terapia_intensiva := 0, deceduti := 0 },
    { data := 2, nuovi_positivi := some 10, tamponi := 105, casi_testati := none,
      terapia_intensiva := 0, deceduti := 0 } ]

/-- C1 (counterexample): the claim says the positivity ratio is `0` whenever
`new_cases[n] > new_tests[n]`, but `calculate_ratio` has no such guard: with
10 new cases and 5 new tests the derived ratio is `200`, not `0`. -/
theorem C1_counterexample :
    elaborate_data c1Input =
      .ok [(1, { DATA := 2, nPos := some 10, TEST := 5, pct := some 200,
                 TI := 0, DIFF := 0, MORTI := 0 })] ∧
    (10 : ℚ) > ((5 : ℤ) : ℚ) ∧ some (200 : ℚ) ≠ some (0 : ℚ) := by
  with_unfolding_all decide

/-- C1 (amended): for every derived row, the positivity ratio is `0` when the
row's new-test count is `0`, and otherwise `round(new_cases/new_tests*100, 2)`
(with a `NaN` new-cases cell propagating to `NaN`); no `new_cases > new_tests`
guard exists. -/
theorem C1_ratio_guard (ds : List RowP) (t : PTable RowD)
    (h : elaborate_data ds = .ok t) :
    ∀ p ∈ t, p.2.pct = if p.2.TEST = 0 then some 0
      else p.2.nPos.map (fun c => round2 (c / (p.2.TEST : ℚ) * 100)) := by
  obtain ⟨-, hrows⟩ := elaborate_ok_rows h
  intro p hp
  obtain ⟨n, -, -, -, -, -, -, hpct, hnPos, -, -⟩ := hrows p hp
  rw [hpct, hnPos]

/-- C1 witness: the amended ratio rule evaluated on day 2 of the three-day
scenario. -/
theorem C1_ratio_guard_witness :
    ((1 : ℤ), e2eRow1).2.pct = (if ((1 : ℤ), e2eRow1).2.TEST = 0 then some 0
      else ((1 : ℤ), e2eRow1).2.nPos.map
        (fun c => round2 (c / (((1 : ℤ), e2eRow1).2.TEST : ℚ) * 100))) :=
  C1_ratio_guard e2eInput e2eDerived (by with_unfolding_all decide)
    ((1 : ℤ), e2eRow1) (by with_unfolding_all decide)

/-- C2 (counterexample): on a zero-row pruned table, Metric Derivation does
not return an empty table — assigning the sentinel list `[0]` as the `testati`
column of a 0-row DataFrame raises a pandas length-mismatch `ValueError`. -/
theorem C2_counterexample :
    elaborate_data ([] : List RowP) =
      .error "Length of values does not match length of index" := by
  with_unfolding_all decide

/-- C2 (amended): on a pruned table with exactly one row, Metric Derivation
returns an empty table without raising; on a zero-row table it raises a
length-mismatch error instead. -/
theorem C2_single_row_empty (r : RowP) : elaborate_data [r] = .ok [] := rfl

/-- C3: out-of-bounds window requests are rejected explicitly (the source
signals the invalid range by returning `None` — the spec's
`InvalidRangeError` contract — rather than silently truncating): `Head` and
`Tail` with `k` above the row count, and `Range` with `begin ≤ 0`, or
`end` above the row count, or `end ≤ begin`. -/
theorem C3_window_bounds (t : PTable α) (k b e : ℤ) :
    (k > (t.nrows : ℤ) → select_data_head t k = .ok none) ∧
    (k > (t.nrows : ℤ) → select_data_tail t k = .ok none) ∧
    (b ≤ 0 → select_data_range t b e = .ok none) ∧
    (e > (t.nrows : ℤ) → select_data_range t b e = .ok none) ∧
    (e ≤ b → select_data_range t b e = .ok none) := by
  refine ⟨?_, ?_, ?_, ?_, ?_⟩ <;> intro h
  · unfold select_data_head
    rw [if_pos h]
  · unfold select_data_tail
    rw [if_pos h]
  · unfold select_data_range
    rw [if_pos h]
  · unfold select_data_range
    by_cases h1 : b ≤ 0
    · rw [if_pos h1]
    · rw [if_neg h1, if_pos h]
  · unfold select_data_range
    by_cases h1 : b ≤ 0
    · rw [if_pos h1]
    · rw [if_neg h1]
      by_cases h2 : e > (t.nrows : ℤ)
      · rw [if_pos h2]
      · rw [if_neg h2, if_pos h]

/-- C3 witness: each rejection evaluated on a concrete 3-row table. -/
theorem C3_window_bounds_witness :
    select_data_head (labeledFrom 1 [10, 20, 30]) 7 = .ok none ∧
    select_data_tail (labeledFrom 1 [10, 20, 30]) 7 = .ok none ∧
    select_data_range (labeledFrom 1 [10, 20, 30]) 0 2 = .ok none ∧
    select_data_range (labeledFrom 1 [10, 20, 30]) 1 5 = .ok none ∧
    select_data_range (labeledFrom 1 [10, 20, 30]) 2 2 = .ok none :=
  ⟨(C3_window_bounds (labeledFrom 1 [10, 20, 30]) 7 0 2).1 (by decide),
   (C3_window_bounds (labeledFrom 1 [10, 20, 30]) 7 0 2).2.1 (by decide),
   (C3_window_bounds (labeledFrom 1 [10, 20, 30]) 7 0 2).2.2.1 (by decide),
   (C3_window_bounds (labeledFrom 1 [10, 20, 30]) 7 1 5).2.2.2.1 (by decide),
   (C3_window_bounds (labeledFrom 1 [10, 20, 30]) 7 2 2).2.2.2.2 (by decide)⟩

/-- C4, failing input: a 5-row derived table (labels 1..5). -/
def c4Table : PTable ℕ := labeledFrom 1 [10, 20, 30, 40, 50]

/-- C4 (code bug): `Range(table, 2, 4)` on a 5-row table does not return rows
2..4 inclusive.  The second drop loop starts at `end` (dropping row 4) and its
bound re-reads the already shrunken table (leaving row 5 behind), so the
result is the non-contiguous row set {2, 3, 5} — contradicting both the claim
and the function's own "keeping only a certain range of data" contract. -/
theorem C4_range_window_bug :
    select_data_range c4Table 2 4 = .ok (some [(2, 20), (3, 30), (5, 50)]) ∧
    (Except.ok (some [(2, 20), (3, 30), (5, 50)]) :
        Except String (Option (PTable ℕ))) ≠
      .ok (some [(2, 20), (3, 30), (4, 40)]) := by
  decide

/-- C5, counterexample input: day 0 carries a validated test count, day 1
does not (`NaN`). -/
def c5Input : List RowP :=
  [ { data := 1, nuovi_positivi := some 0, tamponi := 100, casi_testati := some 100,
      terapia_intensiva := 0, deceduti := 0 },
    { data := 2, nuovi_positivi := some 5, tamponi := 150, casi_testati := none,
      terapia_intensiva := 0, deceduti := 0 } ]

/-- C5 (counterexample): the claim prescribes the raw-cumulative fallback
whenever the two validated counts are not both present, but
`calculate_tests_delta` checks only row `n-1`: with `validated[0]` present and
`validated[1]` absent it computes `int(NaN - 100)`, raising `ValueError`
instead of returning the raw diff `50`. -/
theorem C5_counterexample :
    calculate_tests_delta 1 c5Input = .error "cannot convert float NaN to integer" ∧
    calculate_tests_delta 1 c5Input ≠ .ok 50 ∧
    elaborate_data c5Input = .error "cannot convert float NaN to integer" := by
  with_unfolding_all decide

/-- C5 (amended): the branch is decided by row `n-1` alone — `new_tests[n]`
is the validated diff when `validated[n-1]` and `validated[n]` are both
present, and the raw-cumulative diff when `validated[n-1]` is absent (when
`validated[n-1]` is present but `validated[n]` is absent, the computation
raises and no derived table is produced). -/
theorem C5_tests_delta (ds : List RowP) (t : PTable RowD)
    (h : elaborate_data ds = .ok t) :
    ∀ p ∈ t, ∀ n : ℕ, p.1 = (n : ℤ) →
      ((ds.getD (n - 1) default).casi_testati = none →
        p.2.TEST = intTrunc
          ((ds.getD n default).tamponi - (ds.getD (n - 1) default).tamponi)) ∧
      (∀ cp cc, (ds.getD (n - 1) default).casi_testati = some cp →
        (ds.getD n default).casi_testati = some cc →
        p.2.TEST = intTrunc (cc - cp)) := by
  obtain ⟨-, hrows⟩ := elaborate_ok_rows h
  intro p hp n hlab
  obtain ⟨m, hm1, hmN, hlab', hTn, -, -, -, -, -, -⟩ := hrows p hp
  have hnm : n = m := by
    rw [hlab] at hlab'
    exact_mod_cast hlab'
  subst hnm
  have hb1 : n - 1 < ds.length := by omega
  constructor
  · intro hnone
    rw [calculate_tests_delta_none hb1 hmN hnone] at hTn
    exact (Except.ok.inj hTn).symm
  · intro cp cc hcp hcc
    rw [calculate_tests_delta_some hb1 hmN hcp hcc] at hTn
    exact (Except.ok.inj hTn).symm

/-- C5 witness: the raw-fallback branch evaluated on day 2 of the three-day
scenario (validated counts absent, raw diff `150 - 100 = 50`). -/
theorem C5_tests_delta_witness :
    ((e2eInput.getD 0 default).casi_testati = none →
      e2eRow1.TEST = intTrunc
        ((e2eInput.getD 1 default).tamponi - (e2eInput.getD 0 default).tamponi)) ∧
    (∀ cp cc, (e2eInput.getD 0 default).casi_testati = some cp →
      (e2eInput.getD 1 default).casi_testati = some cc →
      e2eRow1.TEST = intTrunc (cc - cp)) :=
  C5_tests_delta e2eInput e2eDerived (by with_unfolding_all decide)
    ((1 : ℤ), e2eRow1) (by with_unfolding_all decide) 1 rfl

/-- C6: a successful Metric Derivation run on a pruned table with at least two
rows yields exactly one row fewer than the input, and the label `0` (row 0 of
the pruned input) never appears in the output. -/
theorem C6_first_row_drop (ds : List RowP) (t : PTable RowD)
    (h2 : 2 ≤ ds.length) (h : elaborate_data ds = .ok t) :
    t.length = ds.length - 1 ∧ ∀ p ∈ t, p.1 ≠ (0 : ℤ) := by
  obtain ⟨hlen, hrows⟩ := elaborate_ok_rows h
  refine ⟨hlen, ?_⟩
  intro p hp
  obtain ⟨n, hn1, -, hlab, -⟩ := hrows p hp
  rw [hlab]
  simp only [ne_eq, Int.natCast_eq_zero]
  omega

/-- C6 witness: the three-day scenario, 3 input rows against 2 derived rows
labelled 1 and 2. -/
theorem C6_first_row_drop_witness :
    e2eDerived.length = e2eInput.length - 1 ∧ ∀ p ∈ e2eDerived, p.1 ≠ (0 : ℤ) :=
  C6_first_row_drop e2eInput e2eDerived (by decide) (by with_unfolding_all decide)

/-- C7 (code bug): `build_ranking_lists` tasks run in parallel and do
position-`n` inserts into two shared lists; with tasks completing in
enumeration order the ranking is the intended one, but a different valid
interleaving of the same tasks produces a different ranking (the region/ratio
pairing scrambles), so two runs of the Ranking Aggregator on identical input
need not agree. -/
theorem C7_ranking_race :
    validSchedule seqSchedule = true ∧
    validSchedule racySchedule = true ∧
    national_ranking rankRatioInput seqSchedule ≠
      national_ranking rankRatioInput racySchedule := by
  decide

/-- C8, counterexample input: a one-row national table carrying the date, the
eleven prunable columns, and the raw test counter. -/
def c8Input : DF :=
  { cols := ["data", "stato", "ricoverati_con_sintomi", "totale_ospedalizzati",
             "isolamento_domiciliare", "totale_positivi",
             "variazione_totale_positivi", "dimessi_guariti",
             "casi_da_sospetto_diagnostico", "casi_da_screening",
             "totale_casi", "note", "tamponi"],
    rows := [(0, [1, 0, 0, 0, 0, 0, 0, 0, 0, 0, 0, 0, 100])] }

/-- C8, the same table after Column Pruning — which is also the final state of
the caller's argument, since every operation in `cleanup_data` is
`inplace=True` on the argument it was handed. -/
def c8Pruned : DF := { cols := ["data", "tamponi"], rows := [(0, [1, 100])] }

/-- C8 (counterexample): Column Pruning does not leave the table passed in
unchanged — it drops the columns from the argument in place and returns that
same mutated object, so after the call the caller's table differs from what
was passed in. -/
theorem C8_counterexample :
    cleanup_data c8Input none = .ok c8Pruned ∧ c8Pruned ≠ c8Input := by
  decide

/-- C8 (amended): Column Pruning does not leave the table passed in
unchanged — every operation in `cleanup_data` is `inplace=True` on its
argument and that same mutated object is returned, so whenever the input
carries a prunable column (here `note`) the argument's final state after the
call differs from the table passed in, refuting the claim that every stage
leaves its argument unmutated. -/
theorem C8_cleanup_mutates (d d' : DF) (h : cleanup_data d none = .ok d')
    (hnote : d.cols.contains "note" = true) : d' ≠ d := by
  unfold cleanup_data DF.dropColumns at h
  split at h
  next hall =>
    have hd' : d' =
        { cols := d.cols.filter (fun c => ¬ cleanupDropped.contains c),
          rows := d.rows.map (fun r =>
            (r.1, ((d.cols.zip r.2).filter
              (fun p => ¬ cleanupDropped.contains p.1)).map Prod.snd)) } :=
      (Except.ok.inj h).symm
    intro hEq
    have hcols : d.cols.filter (fun c => ¬ cleanupDropped.contains c) = d.cols := by
      have := congrArg DF.cols (hEq.symm.trans hd')
      exact this.symm
    have hmem : "note" ∈ d.cols := by
      simpa using hnote
    have : "note" ∈ d.cols.filter (fun c => ¬ cleanupDropped.contains c) := by
      rw [hcols]
      exact hmem
    have := (List.mem_filter.mp this).2
    simp [cleanupDropped] at this
  next =>
    cases h

/-- C8 witness: the amended mutation fact evaluated on the concrete one-row
table. -/
theorem C8_cleanup_mutates_witness : c8Pruned ≠ c8Input :=
  C8_cleanup_mutates c8Input c8Pruned (by decide) (by decide)

/-- C9: the three-day national scenario derives exactly two rows — day 2 with
50 new tests, ratio 20.0, death delta 0, ICU delta 1, and day 3 with 80 new
tests, ratio 31.25 (= 125/4), death delta 2, ICU delta -2. -/
theorem C9_e2e_scenario : elaborate_data e2eInput = .ok e2eDerived := by
  with_unfolding_all decide

/-- C10: on a non-empty derived table (labels 1..N), `Head(table, 0)` and
`Tail(table, 0)` pass the bound check (which rejects only quantities above the
row count) and return an empty table rather than the invalid-range signal. -/
theorem C10_zero_window (rs : List α) (hne : rs ≠ []) :
    select_data_head (labeledFrom 1 rs) 0 = .ok (some []) ∧
    select_data_tail (labeledFrom 1 rs) 0 = .ok (some []) := by
  have hlen : ((labeledFrom 1 rs).nrows : ℤ) = (rs.length : ℤ) := by
    simp [PTable.nrows, labeledFrom_length]
  have hall := dropLoop_labeledFrom_all rs 1
  constructor
  · unfold select_data_head
    rw [if_neg (by omega)]
    have harg : intRange (1 + 0) (((labeledFrom 1 rs).nrows : ℤ) + 1) =
        intRange 1 (1 + (rs.length : ℤ)) := by
      rw [hlen]
      ring_nf
    rw [harg, hall]
    rfl
  · unfold select_data_tail
    rw [if_neg (by omega)]
    have harg : intRange 1 (((labeledFrom 1 rs).nrows : ℤ) - (0 - 1)) =
        intRange 1 (1 + (rs.length : ℤ)) := by
      rw [hlen]
      ring_nf
    rw [harg, hall]
    rfl

/-- C10 witness: zero-length head and tail windows on a concrete 3-row
table. -/
theorem C10_zero_window_witness :
    select_data_head (labeledFrom 1 [10, 20, 30]) 0 = .ok (some []) ∧
    select_data_tail (labeledFrom 1 [10, 20, 30]) 0 = .ok (some []) :=
  C10_zero_window [10, 20, 30] (by decide)
